import Mathlib

/-!
Shallow embedding of compass/db/database.py: a session-management wrapper
around a relational database layer.  Module state (the engine handle, the
session factory binding, the scoped-session per-context registry and the
per-context session holder slot) is passed explicitly; calls to the
underlying session object (commit, rollback, close) are recorded as events,
and log records carry their severity level.  Exceptions are values of `Exc`;
the context manager session() is split into an enter phase (everything up to
the yield) and an exit phase (everything after it) so that nested scopes can
be expressed by interleaving.
-/

/-- Severity level of a record emitted through the logging module. -/
inductive Level where
  | error
  | warning
deriving DecidableEq, Repr

/-- One record emitted through the logging module. -/
structure LogEntry where
  level : Level
  msg : String
deriving DecidableEq, Repr

/-- Exceptions: arbitrary user or database errors carry a tag; the attribute
error is what Python raises on a missing attribute of the holder object. -/
inductive Exc where
  | user (tag : Nat)
  | attributeError
deriving DecidableEq, Repr

/-- Message text used when an exception is logged via logging.exception. -/
def excMsg : Exc → String
  | Exc.user t => "user exception " ++ toString t
  | Exc.attributeError => "AttributeError"

/-- A session object: its identity and the index of the engine it was bound
to when the factory created it. -/
structure Session where
  sid : Nat
  bound : Nat
deriving DecidableEq, Repr

/-- Lifecycle calls performed on a session object, by session id. -/
inductive Ev where
  | commit (sid : Nat)
  | rollback (sid : Nat)
  | close (sid : Nat)
deriving DecidableEq, Repr

/-- State owned by the module: every engine ever built (by URL, in creation
order), the index of the current global ENGINE, the engine the session
factory is configured to bind to, the per-context registry of the
scoped-session object, the per-context holder slot SESSION_HOLDER.session,
a counter for fresh session identities, the trace of session lifecycle
calls, and the log. -/
structure DBState where
  engines : List String
  engineIdx : Nat
  factoryBind : Nat
  registry : Option Session
  holder : Option Session
  nextSid : Nat
  events : List Ev
  log : List LogEntry
deriving DecidableEq, Repr

/-- Modelled from the spec: the configuration input, a database connection
URL read from the settings module (compass.utils.setting_wrapper is not
under src). -/
def SQLALCHEMY_DATABASE_URI : String := "sqlite://"

/-- Module state right after import: one engine built from the settings URL,
factory bound to it, empty registry, empty holder slot. -/
def initialState : DBState :=
  { engines := [SQLALCHEMY_DATABASE_URI]
    engineIdx := 0
    factoryBind := 0
    registry := none
    holder := none
    nextSid := 0
    events := []
    log := [] }

/-- init(database_url): build a fresh engine from the URL, rebind the
session factory to it, and replace the scoped-session object with a new one
whose per-context registry starts empty.  Sessions already handed out are
not touched. -/
def init (st : DBState) (database_url : String) : DBState :=
  { st with
    engines := st.engines ++ [database_url]
    engineIdx := st.engines.length
    factoryBind := st.engines.length
    registry := none }

/-- Calling the scoped-session object: return the session held in the
per-context registry, or create a new one from the factory (bound to the
engine the factory is currently configured with) and register it. -/
def scopedSessionCall (st : DBState) : Session × DBState :=
  match st.registry with
  | some s => (s, st)
  | none =>
      (⟨st.nextSid, st.factoryBind⟩,
       { st with registry := some ⟨st.nextSid, st.factoryBind⟩
                 nextSid := st.nextSid + 1 })

/-- Modelled from the spec: scoped-session remove, which takes the session
out of the pool of the factory, clearing the per-context registry. -/
def scopedSessionRemove (st : DBState) : DBState :=
  { st with registry := none }

/-- A commit call on a session object, recorded in the trace. -/
def sessionCommit (st : DBState) (s : Session) : DBState :=
  { st with events := st.events ++ [Ev.commit s.sid] }

/-- A rollback call on a session object, recorded in the trace. -/
def sessionRollback (st : DBState) (s : Session) : DBState :=
  { st with events := st.events ++ [Ev.rollback s.sid] }

/-- A close call on a session object, recorded in the trace. -/
def sessionClose (st : DBState) (s : Session) : DBState :=
  { st with events := st.events ++ [Ev.close s.sid] }

/-- logging.error: append an error-level record to the log. -/
def logError (st : DBState) (m : String) : DBState :=
  { st with log := st.log ++ [⟨Level.error, m⟩] }

/-- The part of session() up to and including the yield: when the holder
slot already has a session, log an error and reuse that very session;
otherwise obtain one from the scoped-session object.  Either way the slot
is set to the session being yielded. -/
def sessionEnter (st : DBState) : Session × DBState :=
  match st.holder with
  | some s =>
      (s, { st with log := st.log ++ [⟨Level.error, "we are already in session"⟩]
                    holder := some s })
  | none =>
      match scopedSessionCall st with
      | (s, st1) => (s, { st1 with holder := some s })

/-- del SESSION_HOLDER.session: remove the attribute, raising an attribute
error when it is absent. -/
def delHolderSession (st : DBState) : Option Exc × DBState :=
  match st.holder with
  | some _ => (none, { st with holder := none })
  | none => (some Exc.attributeError, st)

/-- The exception raised inside the try block of the scope: the exception of
the body when there is one, otherwise the outcome of the commit performed on
clean return of the body. -/
def raisedIn (bodyExc commitExc : Option Exc) : Option Exc :=
  match bodyExc with
  | some e => some e
  | none => commitExc

/-- The part of session() after the yield: commit when the body returned
cleanly; on any exception roll back, log twice and keep the original
exception pending; in the finally block close the session, remove it from
the scoped-session object and delete the holder slot — an exception raised
there replaces the pending one, as in Python. -/
def sessionExit (st : DBState) (s : Session) (bodyExc commitExc : Option Exc) :
    Option Exc × DBState :=
  let p :=
    match raisedIn bodyExc commitExc with
    | none => ((none : Option Exc), sessionCommit st s)
    | some e =>
        (some e,
         logError (logError (sessionRollback st s) "failed to commit session") (excMsg e))
  let st3 := scopedSessionRemove (sessionClose p.2 s)
  match delHolderSession st3 with
  | (some e, st4) => (some e, st4)
  | (none, st4) => (p.1, st4)

/-- A full run of the session() context manager: enter, run the body with
the yielded session, exit.  The body reports its exception outcome and the
state it leaves behind; commitExc is the outcome of the commit the scope
performs when the body returns cleanly. -/
def sessionScope (st : DBState) (body : Session → DBState → Option Exc × DBState)
    (commitExc : Option Exc) : Option Exc × DBState :=
  match sessionEnter st with
  | (s, st1) =>
      match body s st1 with
      | (bexc, st2) => sessionExit st2 s bexc commitExc

/-- The session that session() yields from a given starting state. -/
def yieldedSession (st : DBState) : Session := (sessionEnter st).1

/-- The state right after session() has yielded. -/
def enteredState (st : DBState) : DBState := (sessionEnter st).2

/-- current_session(): return the session in the holder slot; when the slot
is empty the attribute lookup raises, the failure is logged, and the error
re-raised. -/
def current_session (st : DBState) : Except Exc Session × DBState :=
  match st.holder with
  | some s => (Except.ok s, st)
  | none =>
      (Except.error Exc.attributeError,
       logError (logError st "It is not in the session scope") (excMsg Exc.attributeError))

/-- Modelled from the spec: metadata create_all — create every table known
to the metadata that the database does not hold yet (compass.db.model is
not under src). -/
def metadataCreateAll (meta db : List String) : List String :=
  meta.foldl (fun acc t => if t ∈ acc then acc else acc ++ [t]) db

/-- Modelled from the spec: metadata drop_all — drop every table known to
the metadata (compass.db.model is not under src). -/
def metadataDropAll (meta db : List String) : List String :=
  db.filter (fun t => decide (t ∉ meta))

/-- Modelled from the spec: create of a table object with a check-first
flag — with the flag set, no error when the table already exists. -/
def tableCreate (db : List String) (t : String) (checkfirst : Bool) :
    Except Exc (List String) :=
  if t ∈ db then
    (if checkfirst then Except.ok db else Except.error (Exc.user 1))
  else Except.ok (db ++ [t])

/-- Modelled from the spec: drop of a table object with a check-first
flag — with the flag set, no error when the table is already absent. -/
def tableDrop (db : List String) (t : String) (checkfirst : Bool) :
    Except Exc (List String) :=
  if t ∈ db then Except.ok (db.filter (fun x => decide (¬ x = t)))
  else (if checkfirst then Except.ok db else Except.error (Exc.user 2))

/-- create_db(): create_all of the model metadata bound to the current
engine; the state of the module is returned untouched, as the source
assigns no global. -/
def create_db (st : DBState) (meta db : List String) : DBState × List String :=
  (st, metadataCreateAll meta db)

/-- drop_db(): drop_all of the model metadata bound to the current engine;
the state of the module is returned untouched. -/
def drop_db (st : DBState) (meta db : List String) : DBState × List String :=
  (st, metadataDropAll meta db)

/-- create_table(table): table create bound to the current engine, with the
check-first flag set to true. -/
def create_table (st : DBState) (db : List String) (t : String) :
    DBState × Except Exc (List String) :=
  (st, tableCreate db t true)

/-- drop_table(table): table drop bound to the current engine, with the
check-first flag set to true. -/
def drop_table (st : DBState) (db : List String) (t : String) :
    DBState × Except Exc (List String) :=
  (st, tableDrop db t true)

/-- The sessions bound to the holder slot of the calling context. -/
def boundSessions (st : DBState) : List Session :=
  st.holder.toList

/-- How many times a given lifecycle call appears in a trace. -/
def countEv (e : Ev) (l : List Ev) : Nat :=
  (l.filter (fun x => decide (x = e))).length

theorem countEv_append (e : Ev) (l1 l2 : List Ev) :
    countEv e (l1 ++ l2) = countEv e l1 + countEv e l2 := by
  simp [countEv, List.filter_append]

theorem countEv_pair_self_close (s : Session) (l : List Ev) (a : Ev) :
    countEv (Ev.close s.sid) (l ++ [a, Ev.close s.sid])
      = countEv (Ev.close s.sid) l + countEv (Ev.close s.sid) [a] + 1 := by
  by_cases h : a = Ev.close s.sid <;>
    simp [countEv, List.filter_append, List.filter, h]

theorem sessionScope_eq (st : DBState) (body : Session → DBState → Option Exc × DBState)
    (commitExc : Option Exc) :
    sessionScope st body commitExc =
      sessionExit (body (yieldedSession st) (enteredState st)).2 (yieldedSession st)
        (body (yieldedSession st) (enteredState st)).1 commitExc := rfl

theorem sessionEnter_some (st : DBState) (s : Session) (h : st.holder = some s) :
    sessionEnter st =
      (s, { st with log := st.log ++ [⟨Level.error, "we are already in session"⟩]
                    holder := some s }) := by
  unfold sessionEnter
  rw [h]

theorem sessionEnter_none (st : DBState) (h : st.holder = none) (h2 : st.registry = none) :
    sessionEnter st =
      (⟨st.nextSid, st.factoryBind⟩,
       { st with registry := some ⟨st.nextSid, st.factoryBind⟩
                 nextSid := st.nextSid + 1
                 holder := some ⟨st.nextSid, st.factoryBind⟩ }) := by
  unfold sessionEnter scopedSessionCall
  rw [h, h2]

theorem sessionEnter_none_reg (st : DBState) (r : Session) (h : st.holder = none)
    (h2 : st.registry = some r) :
    sessionEnter st = (r, { st with holder := some r }) := by
  unfold sessionEnter scopedSessionCall
  simp [h, h2]

theorem enteredState_holder (st : DBState) :
    (enteredState st).holder = some (yieldedSession st) := by
  unfold enteredState yieldedSession sessionEnter scopedSessionCall
  cases st.holder <;> cases st.registry <;> rfl

theorem enteredState_events (st : DBState) :
    (enteredState st).events = st.events := by
  unfold enteredState sessionEnter scopedSessionCall
  cases st.holder <;> cases st.registry <;> rfl

theorem sessionExit_raise (st : DBState) (s : Session) (b c : Option Exc) (E : Exc)
    (hE : raisedIn b c = some E) (s0 : Session) (hH : st.holder = some s0) :
    sessionExit st s b c =
      (some E,
       { st with
         events := st.events ++ [Ev.rollback s.sid, Ev.close s.sid]
         log := st.log ++ [⟨Level.error, "failed to commit session"⟩, ⟨Level.error, excMsg E⟩]
         registry := none
         holder := none }) := by
  unfold sessionExit delHolderSession scopedSessionRemove sessionClose sessionRollback logError
  rw [hE]
  simp [hH]

theorem sessionExit_clean (st : DBState) (s : Session) (s0 : Session)
    (hH : st.holder = some s0) :
    sessionExit st s none none =
      (none,
       { st with
         events := st.events ++ [Ev.commit s.sid, Ev.close s.sid]
         registry := none
         holder := none }) := by
  unfold sessionExit raisedIn delHolderSession scopedSessionRemove sessionClose sessionCommit
  simp [hH]

theorem sessionExit_clean_noholder (st : DBState) (s : Session) (hH : st.holder = none) :
    sessionExit st s none none =
      (some Exc.attributeError,
       { st with
         events := st.events ++ [Ev.commit s.sid, Ev.close s.sid]
         registry := none }) := by
  unfold sessionExit raisedIn delHolderSession scopedSessionRemove sessionClose sessionCommit
  simp [hH]

theorem sessionExit_spec (st : DBState) (s : Session) (b c : Option Exc) :
    (sessionExit st s b c).2.holder = none ∧
    (sessionExit st s b c).2.registry = none ∧
    countEv (Ev.close s.sid) (sessionExit st s b c).2.events
      = countEv (Ev.close s.sid) st.events + 1 := by
  unfold sessionExit delHolderSession scopedSessionRemove sessionClose sessionCommit
    sessionRollback logError
  cases hR : raisedIn b c <;> cases hH : st.holder <;>
    simp [hH, List.append_assoc, countEv_pair_self_close, countEv]

theorem countEv_rb_pair (s : Session) (l : List Ev) :
    countEv (Ev.rollback s.sid) (l ++ [Ev.rollback s.sid, Ev.close s.sid])
      = countEv (Ev.rollback s.sid) l + 1 := by
  simp [countEv, List.filter_append, List.filter]

theorem countEv_cm_pair (s : Session) (l : List Ev) :
    countEv (Ev.commit s.sid) (l ++ [Ev.commit s.sid, Ev.close s.sid])
      = countEv (Ev.commit s.sid) l + 1 := by
  simp [countEv, List.filter_append, List.filter]

theorem countEv_cl_pair (s : Session) (l : List Ev) :
    countEv (Ev.close s.sid) (l ++ [Ev.commit s.sid, Ev.close s.sid])
      = countEv (Ev.close s.sid) l + 1 := by
  simp [countEv, List.filter_append, List.filter]

theorem countEv_rb_zero (s : Session) (l : List Ev) :
    countEv (Ev.rollback s.sid) (l ++ [Ev.commit s.sid, Ev.close s.sid])
      = countEv (Ev.rollback s.sid) l := by
  simp [countEv, List.filter_append, List.filter]

/-- Claim C1 as stated is false: a scope whose body enters and exits a
nested session() scope — emptying the per-context slot — and then raises
user 7 does not re-raise user 7; the deletion of the slot in the cleanup
raises the attribute error, which replaces the original exception, so the
caller sees the attribute error instead. -/
theorem c1_counterexample :
    (sessionScope initialState
        (fun _ q => (some (Exc.user 7), (sessionScope q (fun _ r => (none, r)) none).2))
        none).1 = some Exc.attributeError ∧
    some Exc.attributeError ≠ some (Exc.user 7) :=
  ⟨rfl, by decide⟩

/-- Claim C1 amended: in every session scope whose body raises an exception
E, or whose commit on clean return of the body raises E, provided the body
leaves the per-context slot occupied (as every body that does not itself
enter and exit a nested session() scope does), the scope rolls the session
back and re-raises exactly the original exception E, unchanged and
unwrapped — the error is never swallowed. -/
theorem c1_error_rolled_back_and_reraised (st : DBState)
    (body : Session → DBState → Option Exc × DBState) (commitExc : Option Exc) (E : Exc)
    (hE : raisedIn (body (yieldedSession st) (enteredState st)).1 commitExc = some E)
    (hB : (body (yieldedSession st) (enteredState st)).2.holder.isSome = true) :
    (sessionScope st body commitExc).1 = some E ∧
    countEv (Ev.rollback (yieldedSession st).sid) (sessionScope st body commitExc).2.events
      = countEv (Ev.rollback (yieldedSession st).sid)
          (body (yieldedSession st) (enteredState st)).2.events + 1 := by
  obtain ⟨s0, h0⟩ := Option.isSome_iff_exists.mp hB
  rw [sessionScope_eq, sessionExit_raise _ _ _ _ E hE s0 h0]
  exact ⟨rfl, countEv_rb_pair (yieldedSession st)
    (body (yieldedSession st) (enteredState st)).2.events⟩

theorem c1_witness :
    (sessionScope initialState (fun _ q => (some (Exc.user 7), q)) none).1
      = some (Exc.user 7) :=
  (c1_error_rolled_back_and_reraised initialState (fun _ q => (some (Exc.user 7), q))
    none (Exc.user 7) rfl (by decide)).1

/-- Claim C2: on every exit path of a session scope — whatever the body did
and whether the commit succeeded — the yielded session receives one more
close call, the scoped-session registry is left empty, and the per-context
holder slot is cleared. -/
theorem c2_cleanup_on_every_exit (st : DBState)
    (body : Session → DBState → Option Exc × DBState) (commitExc : Option Exc) :
    (sessionScope st body commitExc).2.holder = none ∧
    (sessionScope st body commitExc).2.registry = none ∧
    countEv (Ev.close (yieldedSession st).sid) (sessionScope st body commitExc).2.events
      = countEv (Ev.close (yieldedSession st).sid)
          (body (yieldedSession st) (enteredState st)).2.events + 1 := by
  rw [sessionScope_eq]
  exact sessionExit_spec _ _ _ _

/-- Claim C4: a session scope whose body returns cleanly, performs no
session lifecycle call of its own and leaves the slot occupied, and whose
commit succeeds, exits without an exception, commits the session exactly
once, closes it exactly once, and performs no rollback. -/
theorem c4_clean_scope_commits_once (st : DBState)
    (body : Session → DBState → Option Exc × DBState)
    (hclean : (body (yieldedSession st) (enteredState st)).1 = none)
    (hev : (body (yieldedSession st) (enteredState st)).2.events = st.events)
    (hB : (body (yieldedSession st) (enteredState st)).2.holder.isSome = true) :
    (sessionScope st body none).1 = none ∧
    countEv (Ev.commit (yieldedSession st).sid) (sessionScope st body none).2.events
      = countEv (Ev.commit (yieldedSession st).sid) st.events + 1 ∧
    countEv (Ev.close (yieldedSession st).sid) (sessionScope st body none).2.events
      = countEv (Ev.close (yieldedSession st).sid) st.events + 1 ∧
    countEv (Ev.rollback (yieldedSession st).sid) (sessionScope st body none).2.events
      = countEv (Ev.rollback (yieldedSession st).sid) st.events := by
  obtain ⟨s0, h0⟩ := Option.isSome_iff_exists.mp hB
  rw [sessionScope_eq, hclean, sessionExit_clean _ _ s0 h0, hev]
  exact ⟨rfl, countEv_cm_pair (yieldedSession st) st.events,
    countEv_cl_pair (yieldedSession st) st.events,
    countEv_rb_zero (yieldedSession st) st.events⟩

theorem c4_witness :
    countEv (Ev.commit (yieldedSession initialState).sid)
        (sessionScope initialState (fun _ q => (none, q)) none).2.events
      = countEv (Ev.commit (yieldedSession initialState).sid) initialState.events + 1 :=
  (c4_clean_scope_commits_once initialState (fun _ q => (none, q)) rfl rfl (by decide)).2.1

/-- Claim C3: inside a session scope, current_session returns the very
session that session() yielded for that scope; outside any scope (empty
holder slot) it fails with the attribute error whose failure is logged as
not being in the session scope, instead of returning a value. -/
theorem c3_current_session_in_and_out (st : DBState) (h : st.holder = none) :
    (current_session (enteredState st)).1 = Except.ok (yieldedSession st) ∧
    (current_session st).1 = Except.error Exc.attributeError := by
  constructor
  · unfold current_session
    rw [enteredState_holder]
  · unfold current_session
    rw [h]

theorem c3_witness :
    (current_session (enteredState initialState)).1 = Except.ok (yieldedSession initialState) ∧
    (current_session initialState).1 = Except.error Exc.attributeError :=
  c3_current_session_in_and_out initialState rfl

/-- Claim C5 as stated is false: entering session() while a session is
already held logs at error level, never at warning level.  At a concrete
state holding session 0, the single record appended to the log has level
error, and the log holds no warning-level record at all. -/
theorem c5_counterexample :
    (enteredState { initialState with holder := some ⟨0, 0⟩ }).log
        = [⟨Level.error, "we are already in session"⟩] ∧
    ((enteredState { initialState with holder := some ⟨0, 0⟩ }).log.filter
        (fun e => decide (e.level = Level.warning))) = [] ∧
    Level.error ≠ Level.warning := by
  refine ⟨by decide, by decide, by decide⟩

/-- Claim C5 amended: when session() is entered while a session is already
associated with the current execution context, it logs an error-level
record ("we are already in session") and yields the existing session object
itself — no new session is obtained from the factory and nothing else in
the state changes. -/
theorem c5_reenter_reuses_session (st : DBState) (s : Session) (h : st.holder = some s) :
    sessionEnter st =
      (s, { st with log := st.log ++ [⟨Level.error, "we are already in session"⟩]
                    holder := some s }) :=
  sessionEnter_some st s h

theorem c5_witness :
    sessionEnter { initialState with holder := some ⟨0, 0⟩ }
      = (⟨0, 0⟩, { initialState with
          holder := some ⟨0, 0⟩
          log := [⟨Level.error, "we are already in session"⟩] }) :=
  c5_reenter_reuses_session { initialState with holder := some ⟨0, 0⟩ } ⟨0, 0⟩ rfl

/-- Claim C6: init(url) replaces the global engine with a freshly built one
and rebinds the session factory to it, the new engine being the one built
from url; a session open at the time of the call stays bound unchanged; and
from any later state whose factory still carries the new binding and whose
context has no session, the next scope yields a session bound to the new
engine. -/
theorem c6_init_rebinds (st : DBState) (s : Session) (url : String)
    (hwf : st.engineIdx < st.engines.length) (hs : st.holder = some s) :
    (init st url).engineIdx ≠ st.engineIdx ∧
    (init st url).factoryBind = (init st url).engineIdx ∧
    (init st url).engines.getLast? = some url ∧
    (init st url).holder = some s ∧
    (∀ st2 : DBState, st2.factoryBind = (init st url).factoryBind → st2.holder = none →
      st2.registry = none → (yieldedSession st2).bound = (init st url).engineIdx) := by
  refine ⟨?_, rfl, ?_, hs, ?_⟩
  · show st.engines.length ≠ st.engineIdx
    omega
  · show (st.engines ++ [url]).getLast? = some url
    simp
  · intro st2 hf hh hr
    unfold yieldedSession
    rw [sessionEnter_none st2 hh hr]
    exact hf

theorem c6_witness :
    (init { initialState with holder := some ⟨0, 0⟩ } "postgres://db").holder
      = some ⟨0, 0⟩ :=
  (c6_init_rebinds { initialState with holder := some ⟨0, 0⟩ } ⟨0, 0⟩ "postgres://db"
    (by decide) rfl).2.2.2.1

/-- Claim C7: create_table and drop_table are idempotent because both pass
the check-first flag: create_table succeeds on any database and succeeds
again on the result, and drop_table succeeds even when the table is absent. -/
theorem c7_create_drop_idempotent (st : DBState) (db : List String) (t : String) :
    (∃ db1, (create_table st db t).2 = Except.ok db1 ∧
      ∃ db2, (create_table st db1 t).2 = Except.ok db2) ∧
    (∃ db3, (drop_table st db t).2 = Except.ok db3) ∧
    (create_table st db t).2 = tableCreate db t true ∧
    (drop_table st db t).2 = tableDrop db t true := by
  refine ⟨?_, ?_, rfl, rfl⟩
  · unfold create_table tableCreate
    by_cases hc : t ∈ db
    · exact ⟨db, by simp [hc], db, by simp [hc]⟩
    · refine ⟨db ++ [t], by simp [hc], db ++ [t], ?_⟩
      simp [hc]
  · unfold drop_table tableDrop
    by_cases hc : t ∈ db
    · exact ⟨db.filter (fun x => decide (¬ x = t)), by simp [hc]⟩
    · exact ⟨db, by simp [hc]⟩

/-- Claim C8: the per-context slot holds at most one session in any state,
and no operation binds a second session to a context that already holds one:
re-entering session() yields the held session itself, leaves the slot, the
registry and the fresh-session counter untouched, and init leaves the slot
untouched. -/
theorem c8_at_most_one_session (st : DBState) (s : Session) (h : st.holder = some s) :
    (∀ q : DBState, (boundSessions q).length ≤ 1) ∧
    yieldedSession st = s ∧
    (enteredState st).holder = some s ∧
    (enteredState st).nextSid = st.nextSid ∧
    (enteredState st).registry = st.registry ∧
    (∀ url, (init st url).holder = some s) := by
  refine ⟨?_, ?_, ?_, ?_, ?_, fun _ => h⟩
  · intro q
    cases hq : q.holder <;> simp [boundSessions, hq]
  · unfold yieldedSession
    rw [sessionEnter_some st s h]
  · unfold enteredState
    rw [sessionEnter_some st s h]
  · unfold enteredState
    rw [sessionEnter_some st s h]
  · unfold enteredState
    rw [sessionEnter_some st s h]

theorem c8_witness :
    yieldedSession { initialState with holder := some ⟨0, 0⟩ } = ⟨0, 0⟩ :=
  (c8_at_most_one_session { initialState with holder := some ⟨0, 0⟩ } ⟨0, 0⟩ rfl).2.1

/-- Claim C9: entering a nested scope inside an active outer scope and
letting the nested scope exit first makes the nested cleanup close the
shared session and delete the per-context slot; the nested scope itself
raises nothing, afterwards current_session fails while the outer scope is
still active, and the outer exit raises the attribute error from its own
cleanup. -/
theorem c9_nested_scope_poisons_outer (st : DBState) (h : st.holder = none) :
    (sessionScope (enteredState st) (fun _ q => (none, q)) none).1 = none ∧
    yieldedSession (enteredState st) = yieldedSession st ∧
    (sessionScope (enteredState st) (fun _ q => (none, q)) none).2.holder = none ∧
    countEv (Ev.close (yieldedSession st).sid)
        (sessionScope (enteredState st) (fun _ q => (none, q)) none).2.events
      = countEv (Ev.close (yieldedSession st).sid) st.events + 1 ∧
    (current_session (sessionScope (enteredState st) (fun _ q => (none, q)) none).2).1
      = Except.error Exc.attributeError ∧
    (sessionExit (sessionScope (enteredState st) (fun _ q => (none, q)) none).2
        (yieldedSession st) none none).1 = some Exc.attributeError := by
  have hs1 : (enteredState st).holder = some (yieldedSession st) := enteredState_holder st
  have hy : yieldedSession (enteredState st) = yieldedSession st := by
    unfold yieldedSession
    rw [sessionEnter_some _ _ hs1]
    rfl
  have hh2 : (enteredState (enteredState st)).holder = some (yieldedSession st) := by
    rw [enteredState_holder, hy]
  rw [sessionScope_eq, hy, sessionExit_clean _ _ _ hh2]
  have he : (enteredState (enteredState st)).events = st.events := by
    rw [enteredState_events, enteredState_events]
  rw [he]
  refine ⟨rfl, rfl, rfl, countEv_cl_pair (yieldedSession st) st.events, rfl, ?_⟩
  rw [sessionExit_clean_noholder _ _ rfl]

theorem c9_witness :
    (sessionExit (sessionScope (enteredState initialState) (fun _ q => (none, q)) none).2
        (yieldedSession initialState) none none).1 = some Exc.attributeError :=
  (c9_nested_scope_poisons_outer initialState rfl).2.2.2.2.2

/-- Claim C10: create_db, drop_db, create_table and drop_table return the
module state exactly as given — the engine handle, the factory binding and
the per-context slot are unchanged. -/
theorem c10_schema_helpers_keep_state (st : DBState) (meta db : List String) (t : String) :
    (create_db st meta db).1 = st ∧ (drop_db st meta db).1 = st ∧
    (create_table st db t).1 = st ∧ (drop_table st db t).1 = st :=
  ⟨rfl, rfl, rfl, rfl⟩
